import Mathlib

/-!
Verification of the RAG pipeline repository: the vendored weaviate
`NearVectorArgumentBuilder` (graphql/nearvectorbuilder.go) and the
orchestration code (`main.go`, weaviate variant; and the qdrant variant).

Modelling conventions:
* Go `float32`/`float64` values are modelled by `GoFloat`, a rational
  value or one of the non-finite IEEE values `NaN`, `+Inf`, `-Inf`.
  The exact rounding of finite values is irrelevant to every property
  proved here; what matters is finiteness (JSON serializability).
* Go maps are modelled as association lists with first-match lookup
  (`lookupMap`).  Claims proved below do not depend on Go's map
  iteration order.
* `json.Marshal` of a float slice fails exactly on non-finite values;
  this is modelled by `listMarshalError`, which returns the message of
  the first offending element, as encoding/json does.
* A Go `panic` inside `build` is modelled as `Except.error` carrying the
  panic message; a successful build returns the ordered list of clauses
  appended to the `nearVector:{...}` body, as structured `Clause` values
  rather than formatted strings.
-/

/-- A Go floating point value: a finite value (rounding irrelevant here),
or one of the IEEE special values that `encoding/json` rejects. -/
inductive GoFloat where
  | finite (q : ℚ)
  | nan
  | posInf
  | negInf
deriving DecidableEq, Repr

/-- Go map lookup, modelled on an association list: first binding wins. -/
def lookupMap {α : Type} : List (String × α) → String → Option α
  | [], _ => none
  | (k, v) :: rest, key => if k = key then some v else lookupMap rest key

/-- The error message `encoding/json` produces for a non-finite float,
`none` for a serializable value. -/
def floatMarshalError : GoFloat → Option String
  | .finite _ => none
  | .nan => some "json: unsupported value: NaN"
  | .posInf => some "json: unsupported value: +Inf"
  | .negInf => some "json: unsupported value: -Inf"

/-- `json.Marshal` outcome for a `[]float32`: the first element's error,
if any (encoding/json stops at the first unsupported value). -/
def listMarshalError (v : List GoFloat) : Option String :=
  v.findSome? floatMarshalError

/-- `json.Marshal` outcome for a `[][]float32`. -/
def vectorsMarshalError (vs : List (List GoFloat)) : Option String :=
  vs.findSome? listMarshalError

/-- The builder state of `NearVectorArgumentBuilder`
(nearvectorbuilder.go lines 9-18).  `targets` holds the string the
`MultiTargetArgumentBuilder` would render; its own builder is not part
of the sources and no claim depends on its contents. -/
structure NearVectorArgumentBuilder where
  vector : List GoFloat := []
  vectorsPerTarget : List (String × List (List GoFloat)) := []
  withCertainty : Bool := false
  certainty : GoFloat := .finite 0
  withDistance : Bool := false
  distance : GoFloat := .finite 0
  targetVectors : List String := []
  targets : Option String := none
deriving Repr

namespace NearVectorArgumentBuilder

/-- `WithVector` (lines 21-24). -/
def withVector (b : NearVectorArgumentBuilder) (v : List GoFloat) :
    NearVectorArgumentBuilder :=
  { b with vector := v }

/-- `WithVectorPerTarget` (lines 28-37): wraps each target's vector into
a one-element list; a no-op on an empty map. -/
def withVectorPerTarget (b : NearVectorArgumentBuilder)
    (m : List (String × List GoFloat)) : NearVectorArgumentBuilder :=
  if 0 < m.length then
    { b with vectorsPerTarget := m.map fun kv => (kv.1, [kv.2]) }
  else b

/-- `WithVectorsPerTarget` (lines 41-46): a no-op on an empty map. -/
def withVectorsPerTarget (b : NearVectorArgumentBuilder)
    (m : List (String × List (List GoFloat))) : NearVectorArgumentBuilder :=
  if 0 < m.length then { b with vectorsPerTarget := m } else b

/-- `WithCertainty` (lines 49-53). -/
def withCertaintyVal (b : NearVectorArgumentBuilder) (c : GoFloat) :
    NearVectorArgumentBuilder :=
  { b with withCertainty := true, certainty := c }

/-- `WithDistance` (lines 56-60). -/
def withDistanceVal (b : NearVectorArgumentBuilder) (d : GoFloat) :
    NearVectorArgumentBuilder :=
  { b with withDistance := true, distance := d }

/-- `WithTargetVectors` (lines 63-68): a no-op on an empty argument list. -/
def withTargetVectors (b : NearVectorArgumentBuilder) (ts : List String) :
    NearVectorArgumentBuilder :=
  if 0 < ts.length then { b with targetVectors := ts } else b

/-- `prepareTargetVectors` (lines 132-143): for each declared target, in
order, append the target name once per vector associated with it in
`vectorsPerTarget`, or once if the map has no entry for it. -/
def prepareTargetVectors (b : NearVectorArgumentBuilder) :
    List String → List String
  | [] => []
  | target :: rest =>
    (match lookupMap b.vectorsPerTarget target with
     | some vectors => vectors.map fun _ => target
     | none => [target]) ++ prepareTargetVectors b rest

end NearVectorArgumentBuilder

/-- One clause of the `nearVector:{...}` body, in the structured form the
format strings of `build` (lines 78-115) render. -/
inductive Clause where
  | certainty (c : GoFloat)
  | distance (d : GoFloat)
  | vectorPerTarget (entries : List (String × List (List GoFloat)))
  | vector (v : List GoFloat)
  | targets (t : String)
  | targetVectors (names : List String)
deriving DecidableEq, Repr

/-- Whether a clause is the single `vector:` entry. -/
def Clause.isVector : Clause → Bool
  | .vector _ => true
  | _ => false

/-- Whether a clause is the `vectorPerTarget:` entry. -/
def Clause.isVectorPerTarget : Clause → Bool
  | .vectorPerTarget _ => true
  | _ => false

namespace NearVectorArgumentBuilder

/-- Lines 87-97 of `build`: if `vectorsPerTarget` is non-empty, marshal
each target's vectors (panicking, i.e. `.error`, on the first
non-serializable one) and emit the `vectorPerTarget:` clause. -/
def buildVectorPerTargetClause (b : NearVectorArgumentBuilder) :
    Except String (List Clause) :=
  if 0 < b.vectorsPerTarget.length then
    match (b.vectorsPerTarget.map Prod.snd).findSome? vectorsMarshalError with
    | some err => .error ("could not marshal vector: " ++ err)
    | none => .ok [Clause.vectorPerTarget b.vectorsPerTarget]
  else .ok []

/-- Lines 98-104 of `build`: the single `vector:` clause, emitted only
when the vector is non-empty AND `vectorsPerTarget` is empty. -/
def buildVectorClause (b : NearVectorArgumentBuilder) :
    Except String (List Clause) :=
  if b.vector.length ≠ 0 ∧ b.vectorsPerTarget.length = 0 then
    match listMarshalError b.vector with
    | some err =>
      .error ("failed to unmarshal nearVector search vector: " ++ err)
    | none => .ok [Clause.vector b.vector]
  else .ok []

/-- `build` (lines 78-115), as the ordered clause list of the
`nearVector:{...}` body; `.error` models the Go `panic` on a JSON
marshalling failure. -/
def build (b : NearVectorArgumentBuilder) : Except String (List Clause) :=
  let c₁ := if b.withCertainty then [Clause.certainty b.certainty] else []
  let c₂ := if b.withDistance then [Clause.distance b.distance] else []
  match b.buildVectorPerTargetClause with
  | .error e => .error e
  | .ok c₃ =>
    match b.buildVectorClause with
    | .error e => .error e
    | .ok c₄ =>
      let c₅ := match b.targets with
        | some t => [Clause.targets t]
        | none => []
      let tv := b.prepareTargetVectors b.targetVectors
      let c₆ := if 0 < tv.length then [Clause.targetVectors tv] else []
      .ok (c₁ ++ c₂ ++ c₃ ++ c₄ ++ c₅ ++ c₆)

end NearVectorArgumentBuilder

/-!
The orchestration code.  `main.go` (weaviate variant) and the qdrant
variant share `processQuery`'s control flow and apology strings; the
shape of the search response differs and both context-assembly loops are
modelled.  The remote calls (Ollama embeddings, the vector store search,
Ollama generate) are modelled by their outcomes, passed to
`processQuery` as `Except` values: `.error` is a non-nil Go `err`.
-/

/-- A dynamically typed Go value (`interface{}`), as far as the
orchestration code inspects it: strings, numbers, string-keyed maps,
lists, and `nil`/anything else. -/
inductive GoVal where
  | str (s : String)
  | num (q : ℚ)
  | map (entries : List (String × GoVal))
  | list (xs : List GoVal)
  | nil
deriving Repr

/-- The two nested type assertions of `main.go` lines 133-134: a result
item yields a text exactly when it is a map whose `"text"` entry is a
string. -/
def docText (doc : GoVal) : Option String :=
  match doc with
  | .map item =>
    match lookupMap item "text" with
    | some (.str text) => some text
    | _ => none
  | _ => none

/-- The context-assembly loop of `main.go` lines 132-139: each item with
a string `"text"` contributes `text ++ "\n"`; any other item contributes
nothing. -/
def contextLoop : List GoVal → String
  | [] => ""
  | doc :: rest =>
    (match docText doc with
     | some text => text ++ "\n"
     | none => "") ++ contextLoop rest

/-- The fixed instructional header of `main.go` line 129 /
`part_000` line 134. -/
def contextHeader : String := "다음 정보를 바탕으로 질문에 답하세요:\n"

/-- Context assembly of `main.go` lines 128-140: the header, then the
loop over the items of `result.Data` at `"Get"`, then at `"Sbb"`; if any
type assertion fails the loop body never runs and the header alone is
the context. -/
def buildContext (data : List (String × GoVal)) : String :=
  match lookupMap data "Get" with
  | some (.map getData) =>
    match lookupMap getData "Sbb" with
    | some (.list documents) => contextHeader ++ contextLoop documents
    | _ => contextHeader
  | _ => contextHeader

/-- Protobuf `GetStringValue` on the `"text"` payload entry (`part_000`
line 136): the string if the payload entry is a string value, `""` for a
missing entry or any other kind. -/
def payloadTextString (payload : List (String × GoVal)) : String :=
  match lookupMap payload "text" with
  | some (.str s) => s
  | _ => ""

/-- The qdrant context-assembly loop of `part_000` lines 135-137: every
point contributes its text payload string followed by a newline, an
empty line when the text payload is missing. -/
def qdrantContextLoop : List (List (String × GoVal)) → String
  | [] => ""
  | point :: rest => payloadTextString point ++ "\n" ++ qdrantContextLoop rest

/-- Apology returned on embedding failure (`main.go` line 109,
`part_000` line 118). -/
def embedApology : String := "죄송합니다. 쿼리 처리 중 오류가 발생했습니다."

/-- Apology returned on search failure (`main.go` line 125,
`part_000` line 130). -/
def searchApology : String := "죄송합니다. 관련 정보를 찾는 중 오류가 발생했습니다."

/-- Apology returned on generation failure (`main.go` line 154,
`part_000` line 151). -/
def generateApology : String := "죄송합니다. 답변을 생성하는 중 오류가 발생했습니다."

/-- `processQuery` (`main.go` lines 101-158), over the outcomes of its
three remote calls.  On an embedding error it returns `embedApology`;
else on a search error, `searchApology`; else it assembles the context,
streams the generation (chunks concatenated in arrival order), and on a
generation error returns `generateApology`, otherwise the accumulated
answer.  The assembled context feeds the generation prompt in the
source; generation's outcome is an input here, so the context is
computed as in the source but the success path returns the accumulated
answer. -/
def processQuery (embedResult : Except String (List GoFloat))
    (searchResult : Except String (List (String × GoVal)))
    (generateResult : Except String (List String)) : String :=
  match embedResult with
  | .error _ => embedApology
  | .ok _ =>
    match searchResult with
    | .error _ => searchApology
    | .ok data =>
      let _ := buildContext data
      match generateResult with
      | .error _ => generateApology
      | .ok chunks => String.join chunks

/-- `processQuery` of the qdrant variant (`part_000` lines 110-155),
over the outcomes of its three remote calls; the search response is the
list of the returned points' payloads.  Same apology strings and control
flow as the weaviate variant; the context is the header followed by the
qdrant loop over the payloads, and the success path returns the
accumulated answer chunks in arrival order. -/
def qdrantProcessQuery (embedResult : Except String (List GoFloat))
    (searchResult : Except String (List (List (String × GoVal))))
    (generateResult : Except String (List String)) : String :=
  match embedResult with
  | .error _ => embedApology
  | .ok _ =>
    match searchResult with
    | .error _ => searchApology
    | .ok points =>
      let _ := contextHeader ++ qdrantContextLoop points
      match generateResult with
      | .error _ => generateApology
      | .ok chunks => String.join chunks

/-- `convertToFloat32` (`main.go` lines 160-166): element-wise
application of the Go narrowing cast, here an arbitrary function
`float32` since only the list structure matters to the claims. -/
def convertToFloat32 {α β : Type} (float32 : α → β) : List α → List β
  | [] => []
  | v :: rest => float32 v :: convertToFloat32 float32 rest

/-!  Theorems for the claims.  -/

/-- Helper: mapping a constant over a list yields a replicate. -/
theorem map_const_eq_replicate {γ : Type} (vs : List γ) (t : String) :
    vs.map (fun _ => t) = List.replicate vs.length t := by
  induction vs with
  | nil => rfl
  | cons v rest ih => simp [List.replicate, ih]

/-- How often `prepareTargetVectors` repeats a declared target: once per
associated vector when the map has an entry for it, once otherwise. -/
def targetRepeatCount (b : NearVectorArgumentBuilder) (t : String) : Nat :=
  match lookupMap b.vectorsPerTarget t with
  | some vectors => vectors.length
  | none => 1

/-- C1: the flat target-name list emitted by `prepareTargetVectors`
repeats each declared target, in declaration order, exactly once per
vector associated with it in `vectorsPerTarget`, and exactly once when
the map has no entry for it; in particular targets `[t1, t2]` with
mapping `{t1: [v1, v2]}` yield `[t1, t1, t2]`. -/
theorem prepareTargetVectors_once_per_vector :
    (∀ (b : NearVectorArgumentBuilder) (targets : List String),
      b.prepareTargetVectors targets
        = targets.flatMap fun t => List.replicate (targetRepeatCount b t) t) ∧
    NearVectorArgumentBuilder.prepareTargetVectors
        { vectorsPerTarget :=
            [("t1", [[GoFloat.finite 1], [GoFloat.finite 2]])] }
        ["t1", "t2"]
      = ["t1", "t1", "t2"] := by
  constructor
  · intro b targets
    induction targets with
    | nil => rfl
    | cons target rest ih =>
      simp only [NearVectorArgumentBuilder.prepareTargetVectors,
        List.flatMap_cons, ih, targetRepeatCount]
      cases lookupMap b.vectorsPerTarget target with
      | some vectors => simp [map_const_eq_replicate]
      | none => simp [List.replicate]
  · decide

/-- C9: every name emitted by `prepareTargetVectors` is one of the
declared targets; a key of the vector map that is not declared
contributes no entry. -/
theorem prepareTargetVectors_subset_of_declared
    (b : NearVectorArgumentBuilder) (targets : List String) :
    (∀ x ∈ b.prepareTargetVectors targets, x ∈ targets) ∧
    ∀ k, k ∉ targets → k ∉ b.prepareTargetVectors targets := by
  have main : ∀ x ∈ b.prepareTargetVectors targets, x ∈ targets := by
    intro x hx
    induction targets with
    | nil => simp [NearVectorArgumentBuilder.prepareTargetVectors] at hx
    | cons target rest ih =>
      simp only [NearVectorArgumentBuilder.prepareTargetVectors,
        List.mem_append] at hx
      rcases hx with hx | hx
      · have hx' : x = target := by
          cases h : lookupMap b.vectorsPerTarget target with
          | some vectors =>
            rw [h] at hx
            rcases List.mem_map.mp hx with ⟨_, _, hmem⟩
            exact hmem.symm
          | none =>
            rw [h] at hx
            exact List.mem_singleton.mp hx
        exact hx' ▸ List.mem_cons_self target rest
      · exact List.mem_cons_of_mem target (ih hx)
  exact ⟨main, fun k hk hmem => hk (main k hmem)⟩

/-- Witness for C9 at a concrete input: the undeclared map key is
dropped. -/
theorem prepareTargetVectors_subset_witness :
    "undeclared" ∉ NearVectorArgumentBuilder.prepareTargetVectors
      { vectorsPerTarget := [("undeclared", [[GoFloat.finite 1]])] } ["a"] :=
  (prepareTargetVectors_subset_of_declared
    { vectorsPerTarget := [("undeclared", [[GoFloat.finite 1]])] }
    ["a"]).2 "undeclared" (by decide)

/-- C10: `convertToFloat32` preserves the length and applies the
narrowing cast element-wise: the i-th output entry is the cast of the
i-th input entry. -/
theorem convertToFloat32_elementwise {α β : Type} (float32 : α → β)
    (f64 : List α) :
    (convertToFloat32 float32 f64).length = f64.length ∧
    ∀ i : ℕ, (convertToFloat32 float32 f64)[i]? = (f64[i]?).map float32 := by
  induction f64 with
  | nil => exact ⟨rfl, fun i => by simp [convertToFloat32]⟩
  | cons v rest ih =>
    refine ⟨by simp [convertToFloat32, ih.1], fun i => ?_⟩
    cases i with
    | zero => simp [convertToFloat32]
    | succ j => simpa [convertToFloat32] using ih.2 j

/-- Helper: `buildVectorPerTargetClause` can only succeed with the
`vectorPerTarget:` clause (map non-empty) or with nothing (map empty). -/
theorem buildVPT_ok (b : NearVectorArgumentBuilder) (c : List Clause)
    (h : b.buildVectorPerTargetClause = Except.ok c) :
    c = if 0 < b.vectorsPerTarget.length
          then [Clause.vectorPerTarget b.vectorsPerTarget] else [] := by
  unfold NearVectorArgumentBuilder.buildVectorPerTargetClause at h
  split at h
  · split at h
    · exact absurd h (by simp)
    · rw [if_pos (by assumption)]
      exact (Except.ok.inj h).symm
  · rw [if_neg (by assumption)]
    exact (Except.ok.inj h).symm

/-- Helper: `buildVectorClause` can only succeed with the single
`vector:` clause (vector non-empty, map empty) or with nothing. -/
theorem buildVC_ok (b : NearVectorArgumentBuilder) (c : List Clause)
    (h : b.buildVectorClause = Except.ok c) :
    c = if b.vector.length ≠ 0 ∧ b.vectorsPerTarget.length = 0
          then [Clause.vector b.vector] else [] := by
  unfold NearVectorArgumentBuilder.buildVectorClause at h
  split at h
  · split at h
    · exact absurd h (by simp)
    · rw [if_pos (by assumption)]
      exact (Except.ok.inj h).symm
  · rw [if_neg (by assumption)]
    exact (Except.ok.inj h).symm

/-- Helper: the exact clause list of every successful `build`, one slot
per conditional append of the source. -/
theorem build_ok_shape (b : NearVectorArgumentBuilder) (cs : List Clause)
    (hb : b.build = Except.ok cs) :
    cs = (if b.withCertainty then [Clause.certainty b.certainty] else [])
      ++ (if b.withDistance then [Clause.distance b.distance] else [])
      ++ (if 0 < b.vectorsPerTarget.length
            then [Clause.vectorPerTarget b.vectorsPerTarget] else [])
      ++ (if b.vector.length ≠ 0 ∧ b.vectorsPerTarget.length = 0
            then [Clause.vector b.vector] else [])
      ++ (match b.targets with | some t => [Clause.targets t] | none => [])
      ++ (if 0 < (b.prepareTargetVectors b.targetVectors).length
            then [Clause.targetVectors (b.prepareTargetVectors b.targetVectors)]
            else []) := by
  cases h₃ : b.buildVectorPerTargetClause with
  | error e =>
    unfold NearVectorArgumentBuilder.build at hb
    rw [h₃] at hb
    exact absurd hb (by simp)
  | ok c₃ =>
    cases h₄ : b.buildVectorClause with
    | error e =>
      unfold NearVectorArgumentBuilder.build at hb
      rw [h₃, h₄] at hb
      exact absurd hb (by simp)
    | ok c₄ =>
      unfold NearVectorArgumentBuilder.build at hb
      rw [h₃, h₄] at hb
      simp only [Except.ok.injEq] at hb
      rw [buildVPT_ok b c₃ h₃, buildVC_ok b c₄ h₄] at hb
      exact hb.symm

/-- C2: whenever the multi-target vector map is non-empty, a successful
`build` emits the `vectorPerTarget:` clause and no single `vector:`
clause, whatever the single vector field holds. -/
theorem build_multiTarget_precedence (b : NearVectorArgumentBuilder)
    (cs : List Clause) (h : b.vectorsPerTarget ≠ [])
    (hb : b.build = Except.ok cs) :
    Clause.vectorPerTarget b.vectorsPerTarget ∈ cs ∧
      ∀ v, Clause.vector v ∉ cs := by
  have hlen : 0 < b.vectorsPerTarget.length := List.length_pos.mpr h
  have hvfalse : ¬(b.vector.length ≠ 0 ∧ b.vectorsPerTarget.length = 0) :=
    fun hx => Nat.pos_iff_ne_zero.mp hlen hx.2
  have hshape := build_ok_shape b cs hb
  subst hshape
  rw [if_pos hlen, if_neg hvfalse]
  constructor
  · simp [List.mem_append]
  · intro v
    cases b.targets <;> split_ifs <;> simp [List.mem_append]

/-- Witness for C2 at a concrete input: a builder with both a single
vector (via `WithVector`) and a multi-target map emits only the
per-target clause. -/
theorem build_multiTarget_precedence_witness :
    Clause.vectorPerTarget [("t", [[GoFloat.finite 1]])]
      ∈ [Clause.vectorPerTarget [("t", [[GoFloat.finite 1]])]] :=
  (build_multiTarget_precedence
    (NearVectorArgumentBuilder.withVectorsPerTarget
      (NearVectorArgumentBuilder.withVector {} [GoFloat.finite 2])
      [("t", [[GoFloat.finite 1]])])
    [Clause.vectorPerTarget [("t", [[GoFloat.finite 1]])]]
    (by simp [NearVectorArgumentBuilder.withVectorsPerTarget,
      NearVectorArgumentBuilder.withVector])
    (by rfl)).1

/-- C8: when both the certainty and the distance thresholds are set, a
successful `build` contains both clauses, independently. -/
theorem build_certainty_distance_independent (b : NearVectorArgumentBuilder)
    (cs : List Clause) (hc : b.withCertainty = true) (hd : b.withDistance = true)
    (hb : b.build = Except.ok cs) :
    Clause.certainty b.certainty ∈ cs ∧ Clause.distance b.distance ∈ cs := by
  have hshape := build_ok_shape b cs hb
  subst hshape
  rw [if_pos hc, if_pos hd]
  constructor <;> simp [List.mem_append]

/-- Witness for C8 at a concrete input. -/
theorem build_certainty_distance_witness :
    Clause.certainty (GoFloat.finite 1)
        ∈ [Clause.certainty (GoFloat.finite 1),
           Clause.distance (GoFloat.finite 2)] ∧
      Clause.distance (GoFloat.finite 2)
        ∈ [Clause.certainty (GoFloat.finite 1),
           Clause.distance (GoFloat.finite 2)] :=
  build_certainty_distance_independent
    (NearVectorArgumentBuilder.withDistanceVal
      (NearVectorArgumentBuilder.withCertaintyVal {} (GoFloat.finite 1))
      (GoFloat.finite 2))
    [Clause.certainty (GoFloat.finite 1), Clause.distance (GoFloat.finite 2)]
    rfl rfl (by rfl)

/-- Counterexample to C4: the default builder (no vector, no per-target
map) builds successfully into a clause list containing neither a
`vector:` nor a `vectorPerTarget:` entry; no guard rejects it. -/
theorem build_empty_counterexample :
    NearVectorArgumentBuilder.build {} = Except.ok [] ∧
      List.any [] Clause.isVector = false ∧
      List.any [] Clause.isVectorPerTarget = false :=
  ⟨by rfl, rfl, rfl⟩

/-- C4 as amended: a successful `build` emits neither the `vector:` nor
the `vectorPerTarget:` entry exactly when the single vector and the
per-target map are both empty; whenever either is set, at least one of
the two entries is present. -/
theorem build_vector_clause_presence (b : NearVectorArgumentBuilder)
    (cs : List Clause) (hb : b.build = Except.ok cs) :
    (cs.any Clause.isVector = false ∧ cs.any Clause.isVectorPerTarget = false)
      ↔ (b.vector = [] ∧ b.vectorsPerTarget = []) := by
  have hshape := build_ok_shape b cs hb
  subst hshape
  by_cases hT : b.vectorsPerTarget = []
  · by_cases hV : b.vector = []
    · rw [hT, hV]
      cases b.targets <;> split_ifs <;>
        simp_all [Clause.isVector, Clause.isVectorPerTarget]
    · have hlen : b.vector.length ≠ 0 := fun hx => hV (List.length_eq_zero.mp hx)
      rw [hT, if_pos (show b.vector.length ≠ 0 ∧
        ([] : List (String × List (List GoFloat))).length = 0 from ⟨hlen, rfl⟩)]
      cases b.targets <;> split_ifs <;>
        simp_all [Clause.isVector, Clause.isVectorPerTarget]
  · have hlen : 0 < b.vectorsPerTarget.length := List.length_pos.mpr hT
    have hvfalse : ¬(b.vector.length ≠ 0 ∧ b.vectorsPerTarget.length = 0) :=
      fun hx => Nat.pos_iff_ne_zero.mp hlen hx.2
    rw [if_pos hlen, if_neg hvfalse]
    cases b.targets <;> split_ifs <;>
      simp_all [Clause.isVector, Clause.isVectorPerTarget]

/-- Witness for the amended C4 at a concrete input (the default
builder). -/
theorem build_vector_clause_presence_witness :
    (List.any [] Clause.isVector = false ∧
        List.any [] Clause.isVectorPerTarget = false) ↔
      (({} : NearVectorArgumentBuilder).vector = [] ∧
        ({} : NearVectorArgumentBuilder).vectorsPerTarget = []) :=
  build_vector_clause_presence {} [] (by rfl)

/-- Counterexample to C3: a NaN in the search vector makes `build`
panic (modelled as an error string), not return a typed
`InvalidVectorError` — no such typed error exists in the code. -/
theorem build_nan_counterexample :
    NearVectorArgumentBuilder.build { vector := [GoFloat.nan] } =
      Except.error
        "failed to unmarshal nearVector search vector: json: unsupported value: NaN" :=
  by rfl

/-- C3 as amended: when the single search vector is actually serialized
(per-target map empty, vector non-empty) and `json.Marshal` rejects it
(it contains NaN or Infinity), `build` panics with the untyped
serialization message before producing the query string. -/
theorem build_nonfinite_vector_panics (b : NearVectorArgumentBuilder)
    (e : String) (h₁ : b.vectorsPerTarget = []) (h₂ : b.vector ≠ [])
    (he : listMarshalError b.vector = some e) :
    b.build = Except.error
      ("failed to unmarshal nearVector search vector: " ++ e) := by
  have e₁ : b.buildVectorPerTargetClause = Except.ok [] := by
    unfold NearVectorArgumentBuilder.buildVectorPerTargetClause
    rw [h₁]
    simp
  have e₂ : b.buildVectorClause = Except.error
      ("failed to unmarshal nearVector search vector: " ++ e) := by
    unfold NearVectorArgumentBuilder.buildVectorClause
    have hlen : b.vector.length ≠ 0 := fun hx => h₂ (List.length_eq_zero.mp hx)
    rw [h₁, if_pos (show b.vector.length ≠ 0 ∧
      ([] : List (String × List (List GoFloat))).length = 0 from ⟨hlen, rfl⟩), he]
  unfold NearVectorArgumentBuilder.build
  rw [e₁, e₂]

/-- Witness for the amended C3 at a concrete input: a vector holding
`+Inf`. -/
theorem build_nonfinite_vector_panics_witness :
    NearVectorArgumentBuilder.build
        { vector := [GoFloat.finite 1, GoFloat.posInf] } =
      Except.error ("failed to unmarshal nearVector search vector: "
        ++ "json: unsupported value: +Inf") :=
  build_nonfinite_vector_panics
    { vector := [GoFloat.finite 1, GoFloat.posInf] }
    "json: unsupported value: +Inf" rfl (by decide) (by rfl)

/-- C5: on each pipeline-stage failure `processQuery` returns (never
raises) the stage's user-facing apology string, and the three apology
strings are pairwise distinct. -/
theorem processQuery_distinct_apologies :
    (∀ (e : String) (s : Except String (List (String × GoVal)))
        (g : Except String (List String)),
      processQuery (Except.error e) s g = embedApology) ∧
    (∀ (v : List GoFloat) (r : String) (g : Except String (List String)),
      processQuery (Except.ok v) (Except.error r) g = searchApology) ∧
    (∀ (v : List GoFloat) (d : List (String × GoVal)) (c : String),
      processQuery (Except.ok v) (Except.ok d) (Except.error c)
        = generateApology) ∧
    embedApology ≠ searchApology ∧ embedApology ≠ generateApology ∧
      searchApology ≠ generateApology :=
  ⟨fun _ _ _ => rfl, fun _ _ _ => rfl, fun _ _ _ => rfl,
    by decide, by decide, by decide⟩

/-- Counterexample to C6: a search response whose single result lacks a
string `"text"` payload is not turned into a retrieval failure — the
context silently degrades to the bare header and `processQuery` returns
the generated answer. -/
theorem contextMissingText_counterexample :
    buildContext [("Get", GoVal.map [("Sbb",
        GoVal.list [GoVal.map [("score", GoVal.num 1)]])])] = contextHeader ∧
    processQuery (Except.ok [GoFloat.finite 1])
      (Except.ok [("Get", GoVal.map [("Sbb",
        GoVal.list [GoVal.map [("score", GoVal.num 1)]])])])
      (Except.ok ["generated answer"]) = "generated answer" := by
  constructor
  · decide
  · decide

/-- C6 as amended: a result whose stored text payload is missing or not
a string is handled silently, never as a failure — the weaviate loop
drops it from the assembled context, the qdrant loop renders it as the
empty string (its `"text"` payload being anything but a string value),
and both variants of `processQuery` proceed to generation and return the
generated answer on any successful search response. -/
theorem contextLoop_skips_missing_text :
    (∀ (pre post : List GoVal) (doc : GoVal), docText doc = none →
      contextLoop (pre ++ doc :: post) = contextLoop (pre ++ post)) ∧
    (∀ payload : List (String × GoVal),
      (∀ s, lookupMap payload "text" ≠ some (GoVal.str s)) →
      payloadTextString payload = "") ∧
    (∀ (v : List GoFloat) (d : List (String × GoVal)) (g : List String),
      processQuery (Except.ok v) (Except.ok d) (Except.ok g)
        = String.join g) ∧
    (∀ (v : List GoFloat) (ps : List (List (String × GoVal)))
        (g : List String),
      qdrantProcessQuery (Except.ok v) (Except.ok ps) (Except.ok g)
        = String.join g) := by
  refine ⟨?_, ?_, fun _ _ _ => rfl, fun _ _ _ => rfl⟩
  · intro pre post doc h
    induction pre with
    | nil => simp [contextLoop, h]
    | cons d rest ih => simp [contextLoop, ih]
  · intro payload h
    unfold payloadTextString
    cases hl : lookupMap payload "text" with
    | none => rfl
    | some val =>
      cases val with
      | str s => exact absurd hl (h s)
      | num q => rfl
      | map m => rfl
      | list xs => rfl
      | nil => rfl

/-- Witness for the amended C6 at concrete inputs: a result whose
`"text"` payload is present but numeric is dropped by the weaviate loop
and rendered as the empty string by the qdrant accessor. -/
theorem contextLoop_skips_missing_text_witness :
    contextLoop ([] ++ GoVal.map [("text", GoVal.num 1)] :: [])
        = contextLoop ([] ++ []) ∧
      payloadTextString [("text", GoVal.num 1)] = "" :=
  ⟨contextLoop_skips_missing_text.1 [] [] (GoVal.map [("text", GoVal.num 1)])
      (by decide),
    contextLoop_skips_missing_text.2.1 [("text", GoVal.num 1)]
      (by intro s hs; simp [lookupMap] at hs)⟩

/-- The spec's rendering of ranked passages: each text on its own line,
in order.  Stated from the spec's words to compare with the code's
context assembly. -/
def renderTextsPerLine : List String → String
  | [] => ""
  | t :: rest => t ++ "\n" ++ renderTextsPerLine rest

/-- C7: on a well-formed response the assembled context is exactly the
fixed header followed by each result's text on its own line, in response
order, for both the weaviate and the qdrant assembly; assembly is a pure
function of the result list. -/
theorem buildContext_renders_in_order (texts : List String) :
    buildContext [("Get", GoVal.map [("Sbb",
        GoVal.list (texts.map fun t => GoVal.map [("text", GoVal.str t)]))])]
      = contextHeader ++ renderTextsPerLine texts ∧
    qdrantContextLoop (texts.map fun t => [("text", GoVal.str t)])
      = renderTextsPerLine texts := by
  have hloop : ∀ ts : List String,
      contextLoop (ts.map fun t => GoVal.map [("text", GoVal.str t)])
        = renderTextsPerLine ts := by
    intro ts
    induction ts with
    | nil => rfl
    | cons t rest ih =>
      simp [contextLoop, docText, lookupMap, renderTextsPerLine, ih,
        String.append_assoc]
  constructor
  · unfold buildContext
    simp [lookupMap, hloop texts]
  · induction texts with
    | nil => rfl
    | cons t rest ih =>
      simp [qdrantContextLoop, payloadTextString, lookupMap,
        renderTextsPerLine, ih, String.append_assoc]
